import Mathlib

/-!
Shallow embedding of `src/frontend/src/main.ts`, the bootstrap entry point of
the savage-aim frontend single-page application.

The module body is a straight-line sequence of side effects against the
framework's global registry: flip the production-tip flag, register four UI
plugins, configure the Sentry telemetry client, and construct and mount the
root view.  We embed the configuration literals as Lean data and the module
body as an ordered list of `Step`s; an `Except`-based interpreter models the
JavaScript exception semantics of the straight-line body (no `try`/`catch`
appears in the file).
-/

namespace SavageAim

/-- A JavaScript configuration value, as used in the object literals of
`main.ts`: booleans, strings, and nested objects (association lists keeping
the literal key order). -/
inductive CVal where
  | b (v : Bool)
  | s (v : String)
  | obj (fields : List (String × CVal))
deriving Repr

/-- The `dynamicDefaults` object literal of `main.ts` lines 12-23: the
default configuration record for modal dialogs, keys in source order. -/
def dynamicDefaults : List (String × CVal) :=
  [ ("adaptive", .b true),
    ("classes", .s "card"),
    ("height", .s "auto"),
    ("width", .s "800px"),
    ("resizable", .b false),
    ("scrollable", .b true),
    ("styles", .obj [ ("max-height", .s "80vh"), ("overflow-y", .s "auto") ]) ]

/-- The four UI extension modules imported and registered by `main.ts`:
vue-notification, vue-js-modal, vue-cookies, vue-shortkey. -/
inductive Plugin where
  | Notifications
  | VModal
  | VueCookies
  | VueShortkey
deriving DecidableEq, Repr

/-- The single router instance imported from `./router`. -/
inductive RouterRef where
  | appRouter
deriving DecidableEq, Repr

/-- The single state-store instance imported from `./store`. -/
inductive StoreRef where
  | appStore
deriving DecidableEq, Repr

/-- The root component imported from `./App.vue`. -/
inductive ComponentRef where
  | app
deriving DecidableEq, Repr

/-- `import router from './router'` -/
def router : RouterRef := .appRouter

/-- `import store from './store'` -/
def store : StoreRef := .appStore

/-- A Sentry integration listed in the `integrations` array:
`new Sentry.BrowserTracing({ routingInstrumentation: Sentry.vueRouterInstrumentation(router) })`
captures the router it is bound to; `new Sentry.Replay()` takes no argument. -/
inductive Integration where
  | browserTracing (boundRouter : RouterRef)
  | replay
deriving DecidableEq, Repr

/-- The options object passed to `Sentry.init` in `main.ts` lines 29-45.
The `Vue` field of the source literal is the framework handle itself and
carries no data, so it is not modelled as a field. -/
structure SentryOptions where
  dsn : String
  logErrors : Bool
  release : String
  integrations : List Integration
  tracesSampleRate : ℚ
  replaysSessionSampleRate : ℚ
  replaysOnErrorSampleRate : ℚ
deriving DecidableEq, Repr

/-- The literal argument of the `Sentry.init` call. -/
def sentryOptions : SentryOptions :=
  { dsn := "https://06f41b525a40497a848fb726f6d03244@o242258.ingest.sentry.io/6180221"
    logErrors := true
    release := "savageaim@20240716"
    integrations := [ .browserTracing router, .replay ]
    tracesSampleRate := 1 / 2
    replaysSessionSampleRate := 0
    replaysOnErrorSampleRate := 1 }

/-- The options object of the `new Vue({...})` call in `main.ts` lines 47-50:
a render function for the `App` component, the router, and the store. -/
structure RootOptions where
  renderComponent : ComponentRef
  router : RouterRef
  store : StoreRef
deriving DecidableEq, Repr

/-- The literal argument of the root `new Vue` construction. -/
def rootOptions : RootOptions :=
  { renderComponent := .app
    router := router
    store := store }

/-- One side-effecting statement of the module body of `main.ts`. -/
inductive Step where
  | setProductionTip (value : Bool)
  | usePlugin (plugin : Plugin) (config : Option (List (String × CVal)))
  | sentryInit (options : SentryOptions)
  | mountRoot (options : RootOptions) (selector : String)
deriving Repr

/-- The module body of `main.ts`, in source order (lines 11, 24-27, 29-45,
47-51).  `const dynamicDefaults = ...` is a pure binding, not a step. -/
def mainSteps : List Step :=
  [ .setProductionTip false,
    .usePlugin .Notifications none,
    .usePlugin .VModal (some [ ("dynamicDefaults", .obj dynamicDefaults) ]),
    .usePlugin .VueCookies none,
    .usePlugin .VueShortkey none,
    .sentryInit sentryOptions,
    .mountRoot rootOptions "#app" ]

/-- Is this step a plugin registration (`Vue.use`)? -/
def Step.isPluginReg : Step → Bool
  | .usePlugin _ _ => true
  | _ => false

/-- Is this step the root-view mount (`new Vue(...).$mount`)? -/
def Step.isMount : Step → Bool
  | .mountRoot _ _ => true
  | _ => false

/-- Is this step the telemetry configuration (`Sentry.init`)? -/
def Step.isSentryInit : Step → Bool
  | .sentryInit _ => true
  | _ => false

/-- Is this step the production-tip flag write? -/
def Step.isSetTip : Step → Bool
  | .setProductionTip _ => true
  | _ => false

/-- Extract the `(plugin, config)` pair of a `Vue.use` step. -/
def Step.pluginArgs : Step → Option (Plugin × Option (List (String × CVal)))
  | .usePlugin p c => some (p, c)
  | _ => none

/-- Extract the value written by a production-tip write step. -/
def Step.tipValue : Step → Option Bool
  | .setProductionTip v => some v
  | _ => none

/-- Extract the options of a `Sentry.init` step. -/
def Step.sentryArgs : Step → Option SentryOptions
  | .sentryInit o => some o
  | _ => none

/-- Extract the `(options, selector)` pair of a mount step. -/
def Step.mountArgs : Step → Option (RootOptions × String)
  | .mountRoot o sel => some (o, sel)
  | _ => none

/-- The routers to which route-change tracking integrations are bound. -/
def routingRouters (o : SentryOptions) : List RouterRef :=
  o.integrations.filterMap fun
    | .browserTracing r => some r
    | .replay => none

/-- Execution of the straight-line module body under JavaScript exception
semantics: each step either succeeds or throws (`Except.error`); the file
installs no handler, so the first thrown exception aborts the remainder of
the sequence and propagates out unchanged. -/
def runBootstrap {E : Type} (eff : Step → Except E Unit) : List Step → Except E Unit
  | [] => .ok ()
  | s :: rest =>
    match eff s with
    | .ok () => runBootstrap eff rest
    | .error e => .error e

/-- If step `i` of a step list throws `e` and every earlier step succeeds,
the whole run returns `e` unchanged. -/
theorem runBootstrap_error {E : Type} (eff : Step → Except E Unit) (e : E) :
    ∀ (l : List Step) (i : Nat) (hi : i < l.length),
      eff (l.get ⟨i, hi⟩) = .error e →
      (∀ j (hj : j < i), eff (l.get ⟨j, Nat.lt_trans hj hi⟩) = .ok ()) →
      runBootstrap eff l = .error e := by
  intro l
  induction l with
  | nil => intro i hi; exact absurd hi (Nat.not_lt_zero i)
  | cons hd tl ih =>
    intro i hi hfail hok
    cases i with
    | zero =>
      simp only [List.get] at hfail
      simp only [runBootstrap, hfail]
    | succ k =>
      have hhd : eff hd = .ok () := hok 0 (Nat.succ_pos k)
      simp only [runBootstrap, hhd]
      exact ih k (Nat.lt_of_succ_lt_succ hi) hfail
        (fun j hj => hok (j + 1) (Nat.succ_lt_succ hj))

/-- The effect used to witness exception propagation: the mount step throws,
every other step succeeds. -/
def effMountThrows : Step → Except String Unit :=
  fun s => if s.isMount then .error "mount failed" else .ok ()

end SavageAim

namespace SavageAim

/-- C1: the module body registers exactly the four UI extension modules
notifications, modal dialogs, cookie access, keyboard shortcuts — each once,
in that order — and only the modal registration carries a configuration
record. -/
theorem bootstrap_plugin_registrations :
    mainSteps.filterMap Step.pluginArgs =
      [ (.Notifications, none),
        (.VModal, some [ ("dynamicDefaults", .obj dynamicDefaults) ]),
        (.VueCookies, none),
        (.VueShortkey, none) ] := rfl

/-- C3: the dialog default configuration record holds exactly the keys
adaptive, classes, height, width, resizable, scrollable, styles, with the
literal values of the source, and that record is what the modal plugin
registration receives. -/
theorem dynamicDefaults_exact :
    dynamicDefaults.map Prod.fst =
      [ "adaptive", "classes", "height", "width", "resizable", "scrollable", "styles" ] ∧
    dynamicDefaults =
      [ ("adaptive", .b true),
        ("classes", .s "card"),
        ("height", .s "auto"),
        ("width", .s "800px"),
        ("resizable", .b false),
        ("scrollable", .b true),
        ("styles", .obj [ ("max-height", .s "80vh"), ("overflow-y", .s "auto") ]) ] ∧
    (mainSteps.filterMap Step.pluginArgs).lookup Plugin.VModal =
      some (some [ ("dynamicDefaults", .obj dynamicDefaults) ]) :=
  ⟨rfl, rfl, rfl⟩

/-- C2: exactly one root-view construction and mount occurs, it receives the
router and the state store, targets the single selector "#app", follows every
plugin registration and the telemetry configuration, and is the final step of
the module body. -/
theorem bootstrap_mount_last :
    mainSteps.filterMap Step.mountArgs = [ (rootOptions, "#app") ] ∧
    rootOptions.router = router ∧
    rootOptions.store = store ∧
    (mainSteps.getLast?.map Step.isMount) = some true ∧
    ((mainSteps.takeWhile fun s => !s.isMount).countP fun s => s.isPluginReg) = 4 ∧
    ((mainSteps.takeWhile fun s => !s.isMount).countP fun s => s.isSentryInit) = 1 :=
  ⟨rfl, rfl, rfl, rfl, rfl, rfl⟩

/-- C4: the three telemetry sample rates — performance traces, session
replays for normal sessions, session replays on error — each lie in the
closed interval from 0 to 1. -/
theorem sentry_sample_rates_in_unit_interval :
    (0 ≤ sentryOptions.tracesSampleRate ∧ sentryOptions.tracesSampleRate ≤ 1) ∧
    (0 ≤ sentryOptions.replaysSessionSampleRate ∧
      sentryOptions.replaysSessionSampleRate ≤ 1) ∧
    (0 ≤ sentryOptions.replaysOnErrorSampleRate ∧
      sentryOptions.replaysOnErrorSampleRate ≤ 1) := by
  refine ⟨⟨?_, ?_⟩, ⟨?_, ?_⟩, ⟨?_, ?_⟩⟩ <;> norm_num [sentryOptions]

/-- C5: the release tag decomposes as a product name — nonempty and free of
digit characters — immediately followed by an eight-digit date, with nothing
else in the string. -/
theorem release_tag_format :
    ∃ product date,
      sentryOptions.release = product ++ date ∧
      product ≠ "" ∧
      (product.data.all fun c => !c.isDigit) = true ∧
      date.length = 8 ∧
      (date.data.all Char.isDigit) = true :=
  ⟨"savageaim@", "20240716", rfl, by decide, by decide, by decide, by decide⟩

/-- C6: the production-tip flag is written exactly once, to false, and no
plugin registration precedes that write. -/
theorem productionTip_disabled_first :
    mainSteps.filterMap Step.tipValue = [ false ] ∧
    ((mainSteps.takeWhile fun s => !s.isSetTip).countP fun s => s.isPluginReg) = 0 :=
  ⟨rfl, rfl⟩

/-- C7: the telemetry client is configured exactly once, with the literal DSN
string, the literal release tag, and integrations consisting precisely of
route-change tracking bound to the application router followed by session
replay. -/
theorem sentry_configured_once :
    mainSteps.filterMap Step.sentryArgs = [ sentryOptions ] ∧
    sentryOptions.dsn =
      "https://06f41b525a40497a848fb726f6d03244@o242258.ingest.sentry.io/6180221" ∧
    sentryOptions.release = "savageaim@20240716" ∧
    sentryOptions.integrations = [ .browserTracing router, .replay ] :=
  ⟨rfl, rfl, rfl, rfl⟩

/-- C8: under exception semantics, if the step at position `i` of the module
body throws `e` and all earlier steps succeed, the whole bootstrap run
returns exactly `e`: the file installs no handler, retries nothing, and has
no partial-success recovery path. -/
theorem bootstrap_exception_propagates {E : Type} (eff : Step → Except E Unit)
    (e : E) (i : Nat) (hi : i < mainSteps.length)
    (hfail : eff (mainSteps.get ⟨i, hi⟩) = .error e)
    (hok : ∀ j (hj : j < i), eff (mainSteps.get ⟨j, Nat.lt_trans hj hi⟩) = .ok ()) :
    runBootstrap eff mainSteps = .error e :=
  runBootstrap_error eff e mainSteps i hi hfail hok

/-- Witness for C8: a throwing mount step aborts the bootstrap with that very
error. -/
theorem bootstrap_exception_propagates_witness :
    runBootstrap effMountThrows mainSteps = .error "mount failed" :=
  bootstrap_exception_propagates effMountThrows "mount failed" 6 (by decide)
    rfl (by intro j hj; interval_cases j <;> rfl)

/-- C9: replays of normal sessions are sampled at exactly 0 and replays of
sessions with an error at exactly 1 — replays are captured precisely when an
error occurs — while performance traces are sampled at exactly one half. -/
theorem replay_only_on_error :
    sentryOptions.replaysSessionSampleRate = 0 ∧
    sentryOptions.replaysOnErrorSampleRate = 1 ∧
    sentryOptions.tracesSampleRate = 1 / 2 :=
  ⟨rfl, rfl, rfl⟩

/-- C10: the router bound into the route-change tracking integration is the
very router handed to the root view, and the root view receives the single
shared store instance. -/
theorem telemetry_router_is_app_router :
    routingRouters sentryOptions = [ rootOptions.router ] ∧
    rootOptions.router = router ∧
    rootOptions.store = store :=
  ⟨rfl, rfl, rfl⟩

end SavageAim
